import Mathlib

/-!
Verification of the failover proxy and retry orchestrator in
`src/base-action/src/proxy-server.ts` of dot-do/claude-code-action.

The first part embeds the Bun `fetch` handler of `startProxyServer`:
`ProxyStats` mirrors the mutable counter record, `ForwardResult` is the
outcome of one `forwardToBedrock` / `forwardToAnthropic` call (an HTTP
response with its status and body, or a thrown network error), and
`handleMessages` is the request-handling path for `POST /v1/messages`,
threading the stats record explicitly.  `HandlerResult.attempts` records
the upstream forward calls actually performed, in order.

The second part embeds `runClaude` and `runClaudeWithRetry`: a spawn of
the client process is abstracted by its observable `SpawnOutcome`
(output chunks and exit code), the environment mutations
(`CLAUDE_CODE_USE_BEDROCK`, `AWS_BEARER_TOKEN_BEDROCK`) are threaded
through `RetryEnv`, and `retryLoop` is the bounded attempt loop, with a
trace of every spawn (attempt number, environment at spawn time,
whether it was the inner zero-delay failover spawn).
-/

namespace ClaudeAction

/-- Substring test helper: does the second list start with the first? -/
def isPrefixList : List Char → List Char → Bool
  | [], _ => true
  | _ :: _, [] => false
  | a :: as, b :: bs => a == b && isPrefixList as bs

/-- Substring test helper: does `pat` occur contiguously inside the list? -/
def containsSubList (pat : List Char) : List Char → Bool
  | [] => isPrefixList pat []
  | l@(_ :: t) => isPrefixList pat l || containsSubList pat t

/-- JS `text.includes(pat)`: case-sensitive substring containment. -/
def containsSub (text pat : String) : Bool := containsSubList pat.data text.data

/-- `response.ok` of the fetch API: true exactly for 2xx statuses. -/
def statusOk (st : Nat) : Bool := 200 ≤ st && st < 300

/-- Outcome of one upstream forward call (`forwardToBedrock` /
`forwardToAnthropic`): either the upstream's HTTP response (any status),
or a thrown network-level error. -/
inductive ForwardResult where
  | response (status : Nat) (body : String)
  | networkError (msg : String)
deriving DecidableEq, Repr

/-- Whether the forward call came back as an HTTP 2xx response. -/
def ForwardResult.ok : ForwardResult → Bool
  | .response st _ => statusOk st
  | .networkError _ => false

/-- The two upstream providers of the failover router. -/
inductive Provider where
  | bedrock
  | anthropic
deriving DecidableEq, Repr

/-- The mutable counter record `ProxyStats` of proxy-server.ts. -/
structure ProxyStats where
  requests : Nat
  successes : Nat
  failures : Nat
  bedrockSuccesses : Nat
  anthropicFailovers : Nat
  lastError : Option String
deriving DecidableEq, Repr

/-- The initial `stats` value: all counters zero, no last error. -/
def initStats : ProxyStats := ⟨0, 0, 0, 0, 0, none⟩

/-- The response returned to the local client by the fetch handler. -/
inductive ProxyResponse where
  | upstream (p : Provider) (status : Nat) (body : String)
  | aggregatedError (bedrockError anthropicError : String) (st : ProxyStats)
  | healthJson (st : ProxyStats)
  | notFound
deriving DecidableEq, Repr

/-- HTTP status of a `ProxyResponse`: upstream responses keep their
status, the aggregated both-providers-failed document is 500. -/
def ProxyResponse.status : ProxyResponse → Nat
  | .upstream _ st _ => st
  | .aggregatedError _ _ _ => 500
  | .healthJson _ => 200
  | .notFound => 404

/-- The `bedrockError` diagnostic string captured by the handler. -/
def bedrockErrMsg : ForwardResult → String
  | .response st body => "Bedrock returned " ++ toString st ++ ": " ++ body
  | .networkError msg => "Bedrock request error: " ++ msg

/-- The `stats.lastError` text recorded when the Anthropic attempt fails. -/
def anthropicErrText : ForwardResult → String
  | .response st _ => "Anthropic returned " ++ toString st
  | .networkError msg => msg

/-- Result of handling one inbound request: the updated stats, the
response sent to the client, and the upstream forward attempts actually
made, in order. -/
structure HandlerResult where
  stats : ProxyStats
  response : ProxyResponse
  attempts : List (Provider × ForwardResult)
deriving DecidableEq, Repr

/-- The failover tail of the fetch handler (lines 174-203): increment
`anthropicFailovers`, attempt Anthropic; on 2xx count a success and
return the response; on non-2xx count a failure, record `lastError`
and return the Anthropic response verbatim; on a thrown network error
count a failure and return the aggregated 500 diagnostic embedding both
providers' error strings and the current stats. -/
def failoverToAnthropic (s1 : ProxyStats) (bedrockError : String)
    (bedrock anthropic : ForwardResult) : HandlerResult :=
  let s2 : ProxyStats := { s1 with anthropicFailovers := s1.anthropicFailovers + 1 }
  match anthropic with
  | .response st body =>
    if statusOk st then
      ⟨{ s2 with successes := s2.successes + 1 },
        .upstream .anthropic st body,
        [(.bedrock, bedrock), (.anthropic, anthropic)]⟩
    else
      ⟨{ s2 with failures := s2.failures + 1, lastError := some ("Anthropic returned " ++ toString st) },
        .upstream .anthropic st body,
        [(.bedrock, bedrock), (.anthropic, anthropic)]⟩
  | .networkError msg =>
    let s3 : ProxyStats := { s2 with failures := s2.failures + 1, lastError := some msg }
    ⟨s3, .aggregatedError bedrockError msg s3,
      [(.bedrock, bedrock), (.anthropic, anthropic)]⟩

/-- The `POST /v1/messages` path of the fetch handler (lines 148-203):
increment `requests`, always try Bedrock first; on 2xx count the
success and return the Bedrock response; on any non-2xx status or
thrown network error capture `bedrockError` and fail over to Anthropic.
The hypothetical outcome of each provider's forward call is passed in;
`attempts` records which calls were actually made. -/
def handleMessages (s0 : ProxyStats) (bedrock anthropic : ForwardResult) : HandlerResult :=
  let s1 : ProxyStats := { s0 with requests := s0.requests + 1 }
  match bedrock with
  | .response st body =>
    if statusOk st then
      ⟨{ s1 with successes := s1.successes + 1, bedrockSuccesses := s1.bedrockSuccesses + 1 },
        .upstream .bedrock st body, [(.bedrock, bedrock)]⟩
    else
      failoverToAnthropic s1 (bedrockErrMsg bedrock) bedrock anthropic
  | .networkError _ =>
    failoverToAnthropic s1 (bedrockErrMsg bedrock) bedrock anthropic

/-- The full fetch handler: `/health` returns the stats snapshot with no
mutation; anything other than `POST /v1/messages` is 404; otherwise the
request-handling path runs. -/
def fetchHandler (s : ProxyStats) (path method : String)
    (bedrock anthropic : ForwardResult) : HandlerResult :=
  if path = "/health" then ⟨s, .healthJson s, []⟩
  else if path = "/v1/messages" && method = "POST" then
    handleMessages s bedrock anthropic
  else ⟨s, .notFound, []⟩

/-- JS truthiness of `env.X?.trim()`: present and nonempty after trim. -/
def truthyTrim : Option String → Bool
  | none => false
  | some s => !(s.trim == "")

/-- The `missing` list built by `validateCredentials` (lines 48-50):
the names of the absent credentials, primary first. -/
def missingCredentials (bedrockToken anthropicKey : Option String) : List String :=
  (if truthyTrim bedrockToken then [] else ["AWS_BEARER_TOKEN_BEDROCK"]) ++
  (if truthyTrim anthropicKey then [] else ["ANTHROPIC_API_KEY"])

/-- `validateCredentials` (lines 44-58): throws when any credential is
missing; the proxy does not start then. -/
def validateCredentials (bedrockToken anthropicKey : Option String) : Except String Unit :=
  if (missingCredentials bedrockToken anthropicKey).length > 0 then
    Except.error ("Missing required credentials: " ++
      String.intercalate ", " (missingCredentials bedrockToken anthropicKey) ++
      "\nBoth AWS_BEARER_TOKEN_BEDROCK and ANTHROPIC_API_KEY must be set as GitHub org secrets.")
  else Except.ok ()

/-- Fold a sequence of completed requests through the handler,
accumulating the stats record (the module-global `stats`). -/
def processAll (s : ProxyStats) (reqs : List (ForwardResult × ForwardResult)) : ProxyStats :=
  reqs.foldl (fun acc p => (handleMessages acc p.1 p.2).stats) s

/-- Terminal response shape when both providers fail: the Anthropic
response verbatim if Anthropic answered with a non-2xx status, else the
aggregated 500 document embedding both error strings and the stats. -/
def expectedTerminalResponse (b a : ForwardResult) (st : ProxyStats) : ProxyResponse :=
  match a with
  | .response s2 body => .upstream .anthropic s2 body
  | .networkError msg => .aggregatedError (bedrockErrMsg b) msg st

/-- The rate-limit heuristic of `runClaude` (lines 392-403) applied to
one chunk of client output: case-sensitive substring matching. -/
def hasRateLimitIndicator (text : String) : Bool :=
  containsSub text "429" || containsSub text "Too many requests" ||
  containsSub text "rate limit" || containsSub text "throttl"

/-- Observable behaviour of one spawned client process: the output
chunks seen on stdout and the terminal exit code. -/
structure SpawnOutcome where
  chunks : List String
  exitCode : Nat
deriving DecidableEq, Repr

/-- How one `runClaude` invocation ends: normal return on exit 0, a
thrown rate-limit `Error` on non-zero exit with a detected indicator,
or `process.exit(code)` on non-zero exit without one. -/
inductive RunResult where
  | success
  | rateLimitThrow (msg : String)
  | fatalExit (code : Nat)
deriving DecidableEq, Repr

/-- The message of the error thrown by `runClaude` on a rate-limited
non-zero exit. -/
def rateLimitMsg (code : Nat) : String :=
  "Claude CLI failed with rate limit error (exit code " ++ toString code ++ ")"

/-- `runClaude` (lines 318-523) reduced to its observable control flow:
`hasRateLimitError` is set when any output chunk matches the heuristic;
exit 0 returns normally; non-zero with the flag throws; non-zero
without it calls `process.exit(exitCode)`. -/
def runClaude (o : SpawnOutcome) : RunResult :=
  if o.exitCode = 0 then .success
  else if o.chunks.any hasRateLimitIndicator then .rateLimitThrow (rateLimitMsg o.exitCode)
  else .fatalExit o.exitCode

/-- The process-environment slice read and mutated by
`runClaudeWithRetry`: `CLAUDE_CODE_USE_BEDROCK`,
`AWS_BEARER_TOKEN_BEDROCK` and `ANTHROPIC_API_KEY`. -/
structure RetryEnv where
  useBedrock : Option String
  bedrockToken : Option String
  anthropicKey : Option String
deriving DecidableEq, Repr

/-- One spawn of the client as recorded by the orchestrator model: the
outer attempt number, the environment at spawn time, the outcome, and
whether this was the inner zero-delay failover spawn. -/
structure SpawnRec where
  attempt : Nat
  envAtSpawn : RetryEnv
  outcome : SpawnOutcome
  inner : Bool
deriving DecidableEq, Repr

/-- How `runClaudeWithRetry` terminates: normal return, a propagated
thrown error, or process termination via `process.exit` inside
`runClaude`. -/
inductive RetryResult where
  | success
  | thrown (msg : String)
  | exited (code : Nat)
deriving DecidableEq, Repr

/-- Result of a full orchestrator run: terminal result, the trace of
all spawns performed, and the final environment state. -/
structure RetryOut where
  result : RetryResult
  trace : List SpawnRec
  envFinal : RetryEnv
deriving DecidableEq, Repr

/-- JS truthiness of `!!process.env.ANTHROPIC_API_KEY`: present and
nonempty. -/
def anthropicTruthy : Option String → Bool
  | none => false
  | some s => !(s == "")

/-- The attempt loop of `runClaudeWithRetry` (lines 553-614).
`initialBedrock` and `hasAnthropicKey` are captured once before the
loop, as in the source.  Each iteration re-sets
`CLAUDE_CODE_USE_BEDROCK` to "1" when `initialBedrock`, spawns the
client (`world` gives successive spawn outcomes), and on a thrown
rate-limit error while preferring Bedrock with an Anthropic key
configured performs one inner zero-delay re-spawn with the preference
flag set to "0" and `AWS_BEARER_TOKEN_BEDROCK` deleted; a second
rate-limit failure falls through to the next outer attempt.  Non-zero
exits without a rate-limit indicator terminate via `process.exit`
inside `runClaude` (modelled as `RetryResult.exited`); exhausting the
attempts re-throws the last error. -/
def retryLoop (world : Nat → SpawnOutcome) (initialBedrock hasAnthropicKey : Bool) :
    Nat → RetryEnv → Nat → Nat → Option String → List SpawnRec → RetryOut
  | 0, env, _, _, lastError, trace =>
    ⟨.thrown (lastError.getD "undefined"), trace, env⟩
  | rem + 1, env, attempt, spawnIdx, lastError, trace =>
    let env1 : RetryEnv := if initialBedrock then { env with useBedrock := some "1" } else env
    let o1 := world spawnIdx
    let trace1 := trace ++ [⟨attempt, env1, o1, false⟩]
    match runClaude o1 with
    | .success => ⟨.success, trace1, env1⟩
    | .fatalExit c => ⟨.exited c, trace1, env1⟩
    | .rateLimitThrow msg =>
      if containsSub msg "rate limit" = false then ⟨.thrown msg, trace1, env1⟩
      else if initialBedrock && hasAnthropicKey then
        let env2 : RetryEnv := { env1 with useBedrock := some "0", bedrockToken := none }
        let o2 := world (spawnIdx + 1)
        let trace2 := trace1 ++ [⟨attempt, env2, o2, true⟩]
        match runClaude o2 with
        | .success => ⟨.success, trace2, env2⟩
        | .fatalExit c => ⟨.exited c, trace2, env2⟩
        | .rateLimitThrow msg2 =>
          if containsSub msg2 "rate limit" then
            retryLoop world initialBedrock hasAnthropicKey rem env2 (attempt + 1)
              (spawnIdx + 2) (some msg2) trace2
          else ⟨.thrown msg2, trace2, env2⟩
      else
        retryLoop world initialBedrock hasAnthropicKey rem env1 (attempt + 1)
          (spawnIdx + 1) (some msg) trace1

/-- `runClaudeWithRetry` (lines 537-625): capture `initialBedrock` from
`CLAUDE_CODE_USE_BEDROCK === "1"` and `hasAnthropicKey` from the
truthiness of `ANTHROPIC_API_KEY`, then run the bounded attempt loop. -/
def runClaudeWithRetry (world : Nat → SpawnOutcome) (env0 : RetryEnv)
    (maxAttempts : Nat) : RetryOut :=
  retryLoop world (env0.useBedrock == some "1") (anthropicTruthy env0.anthropicKey)
    maxAttempts env0 1 0 none []

/-- Bool form of "this spawn fails with a detected rate-limit
indicator": non-zero exit and some chunk matching the heuristic. -/
def isRateLimitFailure (o : SpawnOutcome) : Bool :=
  !(o.exitCode == 0) && o.chunks.any hasRateLimitIndicator

/-! ## Helper lemmas -/

lemma string_data_append (a b : String) : (a ++ b).data = a.data ++ b.data := rfl

lemma isPrefixList_iff (p : List Char) : ∀ l : List Char,
    isPrefixList p l = true ↔ ∃ t, p ++ t = l := by
  induction p with
  | nil => intro l; simp [isPrefixList]
  | cons a as ih =>
    intro l
    cases l with
    | nil => simp [isPrefixList]
    | cons b bs =>
      simp only [isPrefixList, Bool.and_eq_true, beq_iff_eq, ih bs, List.cons_append,
        List.cons.injEq]
      constructor
      · rintro ⟨rfl, t, rfl⟩; exact ⟨t, rfl, rfl⟩
      · rintro ⟨t, rfl, rfl⟩; exact ⟨rfl, t, rfl⟩

lemma containsSubList_iff (p : List Char) : ∀ l : List Char,
    containsSubList p l = true ↔ p <:+: l := by
  intro l
  induction l with
  | nil => cases p <;> simp [containsSubList, isPrefixList]
  | cons b bs ih =>
    rw [containsSubList]
    simp only [Bool.or_eq_true, isPrefixList_iff, ih]
    constructor
    · rintro (⟨t, ht⟩ | ⟨s, t, hst⟩)
      · exact ⟨[], t, by simpa using ht⟩
      · exact ⟨b :: s, t, by simp [hst]⟩
    · rintro ⟨s, t, hst⟩
      cases s with
      | nil => exact Or.inl ⟨t, by simpa using hst⟩
      | cons c cs =>
        obtain ⟨rfl, h2⟩ : c = b ∧ cs ++ p ++ t = bs := by
          simpa using hst
        exact Or.inr ⟨cs, t, h2⟩

lemma containsSub_iff (text pat : String) :
    containsSub text pat = true ↔ pat.data <:+: text.data :=
  containsSubList_iff _ _

lemma rateLimitMsg_contains (c : Nat) : containsSub (rateLimitMsg c) "rate limit" = true := by
  rw [containsSub_iff]
  have h : containsSub "Claude CLI failed with rate limit error (exit code " "rate limit" = true := by
    decide
  rw [containsSub_iff] at h
  obtain ⟨s, t, hst⟩ := h
  refine ⟨s, t ++ (toString c).data ++ ")".data, ?_⟩
  rw [rateLimitMsg, string_data_append, string_data_append, ← hst]
  simp

/-- Full characterisation of the stats update performed by one request. -/
lemma handleMessages_stats (s : ProxyStats) (b a : ForwardResult) :
    (handleMessages s b a).stats =
      if b.ok then
        { s with requests := s.requests + 1, successes := s.successes + 1, bedrockSuccesses := s.bedrockSuccesses + 1 }
      else if a.ok then
        { s with requests := s.requests + 1, successes := s.successes + 1, anthropicFailovers := s.anthropicFailovers + 1 }
      else
        { s with requests := s.requests + 1, failures := s.failures + 1, anthropicFailovers := s.anthropicFailovers + 1, lastError := some (anthropicErrText a) } := by
  cases b <;> cases a <;>
    simp only [handleMessages, failoverToAnthropic, ForwardResult.ok, anthropicErrText] <;>
    (try split) <;> (try split) <;> simp_all [anthropicErrText]

/-- The forward attempts made by one request: Bedrock alone on a 2xx,
otherwise Bedrock followed by exactly one Anthropic attempt. -/
lemma handleMessages_attempts (s : ProxyStats) (b a : ForwardResult) :
    (handleMessages s b a).attempts =
      (if b.ok then [(Provider.bedrock, b)]
       else [(Provider.bedrock, b), (Provider.anthropic, a)]) := by
  cases b <;> cases a <;>
    simp only [handleMessages, failoverToAnthropic, ForwardResult.ok] <;>
    (try split) <;> (try split) <;> simp_all

/-- An absent (or blank) secondary credential forces a nonempty missing
list in `validateCredentials`. -/
lemma missingCredentials_length_pos (bt ak : Option String) (hak : truthyTrim ak = false) :
    (missingCredentials bt ak).length > 0 := by
  rw [missingCredentials, hak]
  split <;> simp

lemma processAll_cons (s : ProxyStats) (p : ForwardResult × ForwardResult)
    (ps : List (ForwardResult × ForwardResult)) :
    processAll s (p :: ps) = processAll (handleMessages s p.1 p.2).stats ps := rfl

/-- The `requests = successes + failures` invariant is preserved by any
sequence of completed requests. -/
lemma processAll_success_failure (reqs : List (ForwardResult × ForwardResult)) :
    ∀ s : ProxyStats, s.requests = s.successes + s.failures →
      (processAll s reqs).requests = (processAll s reqs).successes + (processAll s reqs).failures := by
  induction reqs with
  | nil => intro s h; simpa [processAll] using h
  | cons p ps ih =>
    intro s h
    rw [processAll_cons]
    apply ih
    rw [handleMessages_stats]
    split
    · simp; omega
    · split <;> simp <;> omega

/-- The `requests = bedrockSuccesses + anthropicFailovers` invariant is
preserved by any sequence of completed requests. -/
lemma processAll_provider (reqs : List (ForwardResult × ForwardResult)) :
    ∀ s : ProxyStats, s.requests = s.bedrockSuccesses + s.anthropicFailovers →
      (processAll s reqs).requests =
        (processAll s reqs).bedrockSuccesses + (processAll s reqs).anthropicFailovers := by
  induction reqs with
  | nil => intro s h; simpa [processAll] using h
  | cons p ps ih =>
    intro s h
    rw [processAll_cons]
    apply ih
    rw [handleMessages_stats]
    split
    · simp; omega
    · split <;> simp <;> omega

/-! ## Claim theorems -/

/-- C1: every inbound `POST /v1/messages` request attempts Bedrock (the
primary) first; when the Bedrock attempt returns 2xx it is the only
forward attempt; on any non-2xx status or network error from Bedrock
exactly one Anthropic attempt follows within the same request; there is
never more than one attempt per provider and no retry-with-backoff. -/
theorem c1_failover_order (s : ProxyStats) (b a : ForwardResult) :
    (fetchHandler s "/v1/messages" "POST" b a).attempts =
      (if b.ok then [(Provider.bedrock, b)]
       else [(Provider.bedrock, b), (Provider.anthropic, a)]) := by
  have hroute : fetchHandler s "/v1/messages" "POST" b a = handleMessages s b a := by
    simp [fetchHandler]
  rw [hroute, handleMessages_attempts]

/-- C2: every accepted request increments `requests` exactly once and
ends by incrementing exactly one of `successes` or `failures`; hence
after any sequence of completed requests starting from the initial
stats, `requests = successes + failures`. -/
theorem c2_request_accounting :
    (∀ (s : ProxyStats) (b a : ForwardResult),
      (handleMessages s b a).stats.requests = s.requests + 1 ∧
      (((handleMessages s b a).stats.successes = s.successes + 1 ∧
        (handleMessages s b a).stats.failures = s.failures) ∨
       ((handleMessages s b a).stats.successes = s.successes ∧
        (handleMessages s b a).stats.failures = s.failures + 1))) ∧
    (∀ reqs : List (ForwardResult × ForwardResult),
      (processAll initStats reqs).requests =
        (processAll initStats reqs).successes + (processAll initStats reqs).failures) := by
  constructor
  · intro s b a
    rw [handleMessages_stats]
    split
    · simp
    · split <;> simp
  · intro reqs
    exact processAll_success_failure reqs initStats rfl

/-- C3 counterexample: with Bedrock answering 503 and Anthropic
answering 429 (both providers fail, the secondary by a non-2xx HTTP
response), the handler returns the Anthropic response verbatim with
status 429, not a 500 aggregated diagnostic, refuting the claim that
every both-fail request yields a 500 response embedding both error
descriptions.  The failure counter does increment by 1. -/
theorem c3_counterexample :
    ((handleMessages initStats (ForwardResult.response 503 "overloaded")
        (ForwardResult.response 429 "limited")).response.status == 500) = false ∧
    (handleMessages initStats (ForwardResult.response 503 "overloaded")
        (ForwardResult.response 429 "limited")).response.status = 429 ∧
    (handleMessages initStats (ForwardResult.response 503 "overloaded")
        (ForwardResult.response 429 "limited")).stats.failures = 1 :=
  ⟨rfl, rfl, rfl⟩

/-- C3 (amended): for every request in which both providers fail, the
failures counter increments by exactly 1; if the secondary attempt
fails by a thrown network error the response is the aggregated 500
document embedding both providers' error descriptions and the updated
stats, but if the secondary returns a non-2xx HTTP response, that
upstream response is returned verbatim (its status is the secondary's
status, not necessarily 500, and its body is the secondary's body
only).  `expectedTerminalResponse` captures exactly this split. -/
theorem c3_amended_both_fail (s : ProxyStats) (b a : ForwardResult)
    (hb : b.ok = false) (ha : a.ok = false) :
    (handleMessages s b a).stats.failures = s.failures + 1 ∧
    (handleMessages s b a).response =
      expectedTerminalResponse b a (handleMessages s b a).stats := by
  constructor
  · rw [handleMessages_stats, hb, ha]; simp
  · cases b with
    | response st body =>
      have hst : statusOk st = false := by simpa [ForwardResult.ok] using hb
      cases a with
      | response st2 body2 =>
        have hst2 : statusOk st2 = false := by simpa [ForwardResult.ok] using ha
        simp [handleMessages, failoverToAnthropic, hst, hst2, expectedTerminalResponse]
      | networkError msg =>
        simp [handleMessages, failoverToAnthropic, hst, expectedTerminalResponse]
    | networkError m =>
      cases a with
      | response st2 body2 =>
        have hst2 : statusOk st2 = false := by simpa [ForwardResult.ok] using ha
        simp [handleMessages, failoverToAnthropic, hst2, expectedTerminalResponse]
      | networkError msg =>
        simp [handleMessages, failoverToAnthropic, expectedTerminalResponse]

/-- Witness for `c3_amended_both_fail`: Bedrock answers 500, Anthropic
throws a network error; the hypotheses hold and the amended conclusion
evaluates at this input (the response is the aggregated 500 document
carrying both error strings). -/
theorem c3_amended_both_fail_witness :
    (ForwardResult.response 500 "p-err").ok = false ∧
    (ForwardResult.networkError "conn-reset").ok = false ∧
    ((handleMessages initStats (ForwardResult.response 500 "p-err")
        (ForwardResult.networkError "conn-reset")).stats.failures = initStats.failures + 1 ∧
     (handleMessages initStats (ForwardResult.response 500 "p-err")
        (ForwardResult.networkError "conn-reset")).response =
       expectedTerminalResponse (ForwardResult.response 500 "p-err")
         (ForwardResult.networkError "conn-reset")
         (handleMessages initStats (ForwardResult.response 500 "p-err")
           (ForwardResult.networkError "conn-reset")).stats) :=
  ⟨rfl, rfl,
    c3_amended_both_fail initStats (ForwardResult.response 500 "p-err")
      (ForwardResult.networkError "conn-reset") rfl rfl⟩

/-- C4 counterexample: the fetch handler has no per-request
OperatingMode check and never skips the secondary.  With the primary
returning 500, `anthropicFailovers` increments to 1 (the claim says it
must not increment) and a second forward attempt — against Anthropic —
is made. -/
theorem c4_counterexample :
    (handleMessages initStats (ForwardResult.response 500 "server error")
        (ForwardResult.response 401 "invalid key")).stats.anthropicFailovers = 1 ∧
    (handleMessages initStats (ForwardResult.response 500 "server error")
        (ForwardResult.response 401 "invalid key")).attempts.length = 2 :=
  ⟨rfl, rfl⟩

/-- C4 (amended): when the secondary credential is absent,
`validateCredentials` returns an error, so `startProxyServer` refuses
to start and no request is handled in a secondary-less mode; the
request handler itself never skips the secondary — for any request
whose primary attempt is not 2xx it increments `anthropicFailovers` by
1 and makes the secondary forward attempt unconditionally, and when
that secondary attempt also fails the failures counter increments by
1. -/
theorem c4_amended_no_skip (bt ak : Option String) (s : ProxyStats) (b a : ForwardResult)
    (hak : truthyTrim ak = false) (hb : b.ok = false) (ha : a.ok = false) :
    (∃ e, validateCredentials bt ak = Except.error e) ∧
    (handleMessages s b a).stats.anthropicFailovers = s.anthropicFailovers + 1 ∧
    (handleMessages s b a).stats.failures = s.failures + 1 ∧
    (handleMessages s b a).attempts = [(Provider.bedrock, b), (Provider.anthropic, a)] := by
  refine ⟨?_, ?_, ?_, ?_⟩
  · rw [validateCredentials, if_pos (missingCredentials_length_pos bt ak hak)]
    exact ⟨_, rfl⟩
  · rw [handleMessages_stats, hb, ha]; simp
  · rw [handleMessages_stats, hb, ha]; simp
  · rw [handleMessages_attempts, hb]; simp


lemma runClaude_of_rateLimit {o : SpawnOutcome} (h : isRateLimitFailure o = true) :
    runClaude o = RunResult.rateLimitThrow (rateLimitMsg o.exitCode) := by
  rw [isRateLimitFailure, Bool.and_eq_true, Bool.not_eq_true', beq_eq_false_iff_ne] at h
  rw [runClaude, if_neg h.1, if_pos h.2]

lemma retryLoop_trace_extends (world : Nat → SpawnOutcome) (ib hk : Bool) :
    ∀ (rem : Nat) (env : RetryEnv) (attempt spawnIdx : Nat) (le : Option String)
      (trace : List SpawnRec),
      ∃ rest, (retryLoop world ib hk rem env attempt spawnIdx le trace).trace = trace ++ rest := by
  intro rem
  induction rem with
  | zero =>
    intro env attempt spawnIdx le trace
    exact ⟨[], by simp [retryLoop]⟩
  | succ n ih =>
    intro env attempt spawnIdx le trace
    simp only [retryLoop]
    split
    · exact ⟨_, rfl⟩
    · exact ⟨_, rfl⟩
    · split
      · exact ⟨_, rfl⟩
      · split
        · split
          · exact ⟨_, by rw [List.append_assoc]⟩
          · exact ⟨_, by rw [List.append_assoc]⟩
          · split
            · obtain ⟨rest, hr⟩ := ih _ _ _ _ _
              exact ⟨_, by rw [hr]; rw [List.append_assoc, List.append_assoc]⟩
            · exact ⟨_, by rw [List.append_assoc]⟩
        · obtain ⟨rest, hr⟩ := ih _ _ _ _ _
          exact ⟨_, by rw [hr]; rw [List.append_assoc]⟩


lemma retryLoop_first_spawn (world : Nat → SpawnOutcome) (ib hk : Bool) (rem : Nat)
    (env : RetryEnv) (attempt spawnIdx : Nat) (le : Option String) (trace : List SpawnRec) :
    ∃ rest, (retryLoop world ib hk (rem + 1) env attempt spawnIdx le trace).trace =
      trace ++ (⟨attempt, (if ib then { env with useBedrock := some "1" } else env),
        world spawnIdx, false⟩ :: rest) := by
  simp only [retryLoop]
  split
  · exact ⟨_, by simp; try rfl⟩
  · exact ⟨_, by simp; try rfl⟩
  · split
    · exact ⟨_, by simp; try rfl⟩
    · split
      · split
        · exact ⟨_, by simp; try rfl⟩
        · exact ⟨_, by simp; try rfl⟩
        · split
          · obtain ⟨rest, hr⟩ := retryLoop_trace_extends world ib hk rem _ _ _ _ _
            exact ⟨_, by rw [hr]; simp; try rfl⟩
          · exact ⟨_, by simp; try rfl⟩
      · obtain ⟨rest, hr⟩ := retryLoop_trace_extends world ib hk rem _ _ _ _ _
        exact ⟨_, by rw [hr]; simp; try rfl⟩

lemma retryLoop_failover_step (world : Nat → SpawnOutcome) (rem attempt spawnIdx : Nat)
    (env : RetryEnv) (le : Option String) (trace : List SpawnRec)
    (h1 : isRateLimitFailure (world spawnIdx) = true)
    (h2 : isRateLimitFailure (world (spawnIdx + 1)) = true) :
    retryLoop world true true (rem + 1) env attempt spawnIdx le trace =
      retryLoop world true true rem ⟨some "0", none, env.anthropicKey⟩ (attempt + 1)
        (spawnIdx + 2) (some (rateLimitMsg (world (spawnIdx + 1)).exitCode))
        (trace ++ [⟨attempt, { env with useBedrock := some "1" }, world spawnIdx, false⟩,
          ⟨attempt, ⟨some "0", none, env.anthropicKey⟩, world (spawnIdx + 1), true⟩]) := by
  simp only [retryLoop, runClaude_of_rateLimit h1, runClaude_of_rateLimit h2,
    rateLimitMsg_contains, Bool.true_eq_false, if_false, Bool.and_self, if_true,
    List.append_assoc, List.cons_append, List.nil_append]


/-- Once the Bedrock token is deleted, no later step of the loop (with
primary initially configured) restores it: every later spawn record
has no token, every outer spawn has the preference flag re-set to "1",
and the final environment still has no token. -/
lemma retryLoop_token_inv (world : Nat → SpawnOutcome) (hk : Bool) :
    ∀ (rem : Nat) (env : RetryEnv) (attempt spawnIdx : Nat) (le : Option String)
      (trace : List SpawnRec),
      ∃ rest, (retryLoop world true hk rem env attempt spawnIdx le trace).trace = trace ++ rest ∧
        (env.bedrockToken = none →
          (∀ r ∈ rest, r.envAtSpawn.bedrockToken = none ∧
            (r.inner = false → r.envAtSpawn.useBedrock = some "1")) ∧
          (retryLoop world true hk rem env attempt spawnIdx le trace).envFinal.bedrockToken = none) := by
  intro rem
  induction rem with
  | zero =>
    intro env attempt spawnIdx le trace
    exact ⟨[], by simp [retryLoop], fun henv => ⟨by simp, by simpa [retryLoop] using henv⟩⟩
  | succ n ih =>
    intro env attempt spawnIdx le trace
    simp only [retryLoop]
    split
    · refine ⟨_, rfl, fun henv => ⟨?_, by simpa using henv⟩⟩
      intro r hr
      simp at hr
      subst hr
      simp [henv]
    · refine ⟨_, rfl, fun henv => ⟨?_, by simpa using henv⟩⟩
      intro r hr
      simp at hr
      subst hr
      simp [henv]
    · split
      · refine ⟨_, rfl, fun henv => ⟨?_, by simpa using henv⟩⟩
        intro r hr
        simp at hr
        subst hr
        simp [henv]
      · split
        · split
          · refine ⟨_, by rw [List.append_assoc], fun henv => ⟨?_, by simp⟩⟩
            intro r hr
            simp at hr
            rcases hr with hr | hr <;> subst hr <;> simp [henv]
          · refine ⟨_, by rw [List.append_assoc], fun henv => ⟨?_, by simp⟩⟩
            intro r hr
            simp at hr
            rcases hr with hr | hr <;> subst hr <;> simp [henv]
          · split
            · obtain ⟨rest, hr, himp⟩ := ih _ _ _ _ _
              refine ⟨_, by rw [hr]; rw [List.append_assoc, List.append_assoc], fun henv => ?_⟩
              obtain ⟨hP, hE⟩ := himp (by simp)
              refine ⟨?_, hE⟩
              intro r hmem
              simp at hmem
              rcases hmem with hmem | hmem | hmem
              · subst hmem; simp [henv]
              · subst hmem; simp
              · exact hP r hmem
            · refine ⟨_, by rw [List.append_assoc], fun henv => ⟨?_, by simp⟩⟩
              intro r hr
              simp at hr
              rcases hr with hr | hr <;> subst hr <;> simp [henv]
        · obtain ⟨rest, hr, himp⟩ := ih _ _ _ _ _
          refine ⟨_, by rw [hr]; rw [List.append_assoc], fun henv => ?_⟩
          obtain ⟨hP, hE⟩ := himp (by simpa using henv)
          refine ⟨?_, hE⟩
          intro r hmem
          simp at hmem
          rcases hmem with hmem | hmem
          · subst hmem; simp [henv]
          · exact hP r hmem


/-- C5: for every request whose Bedrock attempt returns 2xx,
`bedrockSuccesses` and `successes` each increment by exactly 1 and
`anthropicFailovers` does not change. -/
theorem c5_primary_success (s : ProxyStats) (b a : ForwardResult) (h : b.ok = true) :
    (handleMessages s b a).stats.bedrockSuccesses = s.bedrockSuccesses + 1 ∧
    (handleMessages s b a).stats.successes = s.successes + 1 ∧
    (handleMessages s b a).stats.anthropicFailovers = s.anthropicFailovers := by
  rw [handleMessages_stats, h]
  simp

/-- Witness for `c5_primary_success` at a concrete 200 response. -/
theorem c5_primary_success_witness :
    (ForwardResult.response 200 "hi").ok = true ∧
    ((handleMessages initStats (ForwardResult.response 200 "hi")
        (ForwardResult.networkError "unused")).stats.bedrockSuccesses =
      initStats.bedrockSuccesses + 1 ∧
     (handleMessages initStats (ForwardResult.response 200 "hi")
        (ForwardResult.networkError "unused")).stats.successes = initStats.successes + 1 ∧
     (handleMessages initStats (ForwardResult.response 200 "hi")
        (ForwardResult.networkError "unused")).stats.anthropicFailovers =
       initStats.anthropicFailovers) :=
  ⟨rfl, c5_primary_success initStats (ForwardResult.response 200 "hi")
    (ForwardResult.networkError "unused") rfl⟩

/-- C8: the rate-limit classifier returns true exactly when the text
contains (case-sensitively, as a contiguous substring) one of "429",
"Too many requests", "rate limit" or "throttl"; for every text
containing none of them it returns false. -/
theorem c8_rate_limit_classifier (text : String) :
    hasRateLimitIndicator text = true ↔
      ("429".data <:+: text.data ∨ "Too many requests".data <:+: text.data ∨
       "rate limit".data <:+: text.data ∨ "throttl".data <:+: text.data) := by
  simp only [hasRateLimitIndicator, Bool.or_eq_true, containsSub_iff]
  tauto

/-- C9: `anthropicFailovers` increments exactly on requests whose
Bedrock attempt is not 2xx and `bedrockSuccesses` exactly on those
where it is; the `anthropicFailovers` update is independent of the
Anthropic attempt's outcome (it is performed before that attempt); and
`requests = bedrockSuccesses + anthropicFailovers` after any sequence
of completed requests. -/
theorem c9_provider_accounting :
    (∀ (s : ProxyStats) (b a : ForwardResult),
      (handleMessages s b a).stats.anthropicFailovers =
        s.anthropicFailovers + (if b.ok then 0 else 1) ∧
      (handleMessages s b a).stats.bedrockSuccesses =
        s.bedrockSuccesses + (if b.ok then 1 else 0)) ∧
    (∀ (s : ProxyStats) (b a a2 : ForwardResult),
      (handleMessages s b a).stats.anthropicFailovers =
        (handleMessages s b a2).stats.anthropicFailovers) ∧
    (∀ reqs : List (ForwardResult × ForwardResult),
      (processAll initStats reqs).requests =
        (processAll initStats reqs).bedrockSuccesses +
          (processAll initStats reqs).anthropicFailovers) := by
  refine ⟨?_, ?_, ?_⟩
  · intro s b a
    rw [handleMessages_stats]
    split
    · simp
    · split <;> simp
  · intro s b a a2
    rw [handleMessages_stats, handleMessages_stats]
    split
    · rfl
    · split <;> split <;> simp
  · intro reqs
    exact processAll_provider reqs initStats rfl


/-- C6: when a spawn fails with a rate-limit indicator while preferring
primary (initialBedrock) and a secondary credential is configured, the
loop immediately re-spawns once within the same outer attempt with the
preference flag switched to "0" and the Bedrock token deleted; when
that inner spawn also fails with a rate-limit indicator, the loop
proceeds to the next outer attempt (same remaining-attempt budget minus
one, attempt counter +1), whose first spawn has the preference flag
re-set to "1". -/
theorem c6_inner_failover (world : Nat → SpawnOutcome) (rem attempt spawnIdx : Nat)
    (env : RetryEnv) (le : Option String) (trace : List SpawnRec)
    (h1 : isRateLimitFailure (world spawnIdx) = true)
    (h2 : isRateLimitFailure (world (spawnIdx + 1)) = true) :
    (retryLoop world true true (rem + 1) env attempt spawnIdx le trace =
      retryLoop world true true rem ⟨some "0", none, env.anthropicKey⟩ (attempt + 1)
        (spawnIdx + 2) (some (rateLimitMsg (world (spawnIdx + 1)).exitCode))
        (trace ++ [⟨attempt, { env with useBedrock := some "1" }, world spawnIdx, false⟩,
          ⟨attempt, ⟨some "0", none, env.anthropicKey⟩, world (spawnIdx + 1), true⟩])) ∧
    (∀ rem2 : Nat, ∃ rest2,
      (retryLoop world true true (rem2 + 1) ⟨some "0", none, env.anthropicKey⟩ (attempt + 1)
        (spawnIdx + 2) (some (rateLimitMsg (world (spawnIdx + 1)).exitCode))
        (trace ++ [⟨attempt, { env with useBedrock := some "1" }, world spawnIdx, false⟩,
          ⟨attempt, ⟨some "0", none, env.anthropicKey⟩, world (spawnIdx + 1), true⟩])).trace =
      (trace ++ [⟨attempt, { env with useBedrock := some "1" }, world spawnIdx, false⟩,
        ⟨attempt, ⟨some "0", none, env.anthropicKey⟩, world (spawnIdx + 1), true⟩]) ++
        (⟨attempt + 1, ⟨some "1", none, env.anthropicKey⟩, world (spawnIdx + 2), false⟩ :: rest2)) := by
  refine ⟨retryLoop_failover_step world rem attempt spawnIdx env le trace h1 h2, ?_⟩
  intro rem2
  obtain ⟨rest2, hr⟩ := retryLoop_first_spawn world true true rem2
    ⟨some "0", none, env.anthropicKey⟩ (attempt + 1) (spawnIdx + 2)
    (some (rateLimitMsg (world (spawnIdx + 1)).exitCode))
    (trace ++ [⟨attempt, { env with useBedrock := some "1" }, world spawnIdx, false⟩,
      ⟨attempt, ⟨some "0", none, env.anthropicKey⟩, world (spawnIdx + 1), true⟩])
  exact ⟨rest2, by simpa using hr⟩

/-- Witness for `c6_inner_failover`: a world whose every spawn exits 1
printing "429"; both hypotheses hold and the inner-failover equation
evaluates at attempt 1, spawn index 0, empty trace. -/
theorem c6_inner_failover_witness :
    isRateLimitFailure ((fun _ => (⟨["429"], 1⟩ : SpawnOutcome)) 0) = true ∧
    isRateLimitFailure ((fun _ => (⟨["429"], 1⟩ : SpawnOutcome)) (0 + 1)) = true ∧
    retryLoop (fun _ => (⟨["429"], 1⟩ : SpawnOutcome)) true true (0 + 1)
        ⟨some "1", some "tok", some "key"⟩ 1 0 none [] =
      retryLoop (fun _ => (⟨["429"], 1⟩ : SpawnOutcome)) true true 0
        ⟨some "0", none, some "key"⟩ (1 + 1) (0 + 2) (some (rateLimitMsg 1))
        [⟨1, ⟨some "1", some "tok", some "key"⟩, ⟨["429"], 1⟩, false⟩,
         ⟨1, ⟨some "0", none, some "key"⟩, ⟨["429"], 1⟩, true⟩] :=
  ⟨by decide, by decide,
    (c6_inner_failover (fun _ => (⟨["429"], 1⟩ : SpawnOutcome)) 0 1 0
      ⟨some "1", some "tok", some "key"⟩ none [] (by decide) (by decide)).1⟩

/-- C7: a spawn that exits non-zero with no rate-limit indicator in its
output terminates the whole run immediately (the `process.exit` path of
`runClaude`): exactly one spawn appears in the trace and the result is
`exited` with that exit code — no retry happens. -/
theorem c7_fatal_no_retry (world : Nat → SpawnOutcome) (env0 : RetryEnv) (m : Nat)
    (h0 : (world 0).exitCode ≠ 0)
    (h1 : (world 0).chunks.any hasRateLimitIndicator = false) :
    runClaudeWithRetry world env0 (m + 1) =
      ⟨.exited (world 0).exitCode,
       [⟨1, (if env0.useBedrock == some "1" then { env0 with useBedrock := some "1" } else env0),
         world 0, false⟩],
       (if env0.useBedrock == some "1" then { env0 with useBedrock := some "1" } else env0)⟩ := by
  have hrc : runClaude (world 0) = RunResult.fatalExit (world 0).exitCode := by
    rw [runClaude, if_neg h0, if_neg (by simp [h1])]
  rw [runClaudeWithRetry]
  simp only [retryLoop, hrc, List.nil_append]

/-- Witness for `c7_fatal_no_retry`: every spawn exits 2 printing
"segmentation fault"; the orchestrator spawns once and exits 2. -/
theorem c7_fatal_no_retry_witness :
    ((fun _ => (⟨["segmentation fault"], 2⟩ : SpawnOutcome)) 0).exitCode ≠ 0 ∧
    ((fun _ => (⟨["segmentation fault"], 2⟩ : SpawnOutcome)) 0).chunks.any
      hasRateLimitIndicator = false ∧
    runClaudeWithRetry (fun _ => (⟨["segmentation fault"], 2⟩ : SpawnOutcome))
        ⟨some "1", some "tok", some "key"⟩ (4 + 1) =
      ⟨.exited 2, [⟨1, ⟨some "1", some "tok", some "key"⟩, ⟨["segmentation fault"], 2⟩, false⟩],
        ⟨some "1", some "tok", some "key"⟩⟩ :=
  ⟨by decide, by decide,
    c7_fatal_no_retry (fun _ => (⟨["segmentation fault"], 2⟩ : SpawnOutcome))
      ⟨some "1", some "tok", some "key"⟩ 4 (by decide) (by decide)⟩

/-- C10: in a run that was initially configured for Bedrock and has a
(truthy) Anthropic key, once the first attempt rate-limits twice (so
the inner failover executed and deleted `AWS_BEARER_TOKEN_BEDROCK`),
every spawn after the first has no Bedrock token in its environment and
every subsequent outer (non-inner) spawn still has
`CLAUDE_CODE_USE_BEDROCK` re-set to "1"; the final environment also has
no Bedrock token — it is never restored. -/
theorem c10_token_never_restored (world : Nat → SpawnOutcome) (env0 : RetryEnv) (m : Nat)
    (hb : env0.useBedrock = some "1") (hkey : anthropicTruthy env0.anthropicKey = true)
    (h1 : isRateLimitFailure (world 0) = true) (h2 : isRateLimitFailure (world 1) = true) :
    (∀ r ∈ (runClaudeWithRetry world env0 (m + 1)).trace.drop 1,
      r.envAtSpawn.bedrockToken = none ∧
      (r.inner = false → r.envAtSpawn.useBedrock = some "1")) ∧
    (runClaudeWithRetry world env0 (m + 1)).envFinal.bedrockToken = none := by
  have hib : (env0.useBedrock == some "1") = true := by rw [hb]; rfl
  have h2' : isRateLimitFailure (world (0 + 1)) = true := by simpa using h2
  rw [runClaudeWithRetry, hib, hkey]
  rw [retryLoop_failover_step world m 1 0 env0 none [] h1 h2']
  obtain ⟨rest, hr, himp⟩ := retryLoop_token_inv world true m
    ⟨some "0", none, env0.anthropicKey⟩ (1 + 1) (0 + 2)
    (some (rateLimitMsg (world (0 + 1)).exitCode))
    ([] ++ [⟨1, { env0 with useBedrock := some "1" }, world 0, false⟩,
      ⟨1, ⟨some "0", none, env0.anthropicKey⟩, world (0 + 1), true⟩])
  obtain ⟨hP, hE⟩ := himp rfl
  constructor
  · intro r hmem
    rw [hr] at hmem
    simp only [List.nil_append, List.cons_append, List.drop_succ_cons, List.drop_zero,
      List.mem_cons] at hmem
    rcases hmem with hmem | hmem
    · subst hmem
      exact ⟨rfl, by simp⟩
    · exact hP r hmem
  · exact hE

/-- Witness for `c10_token_never_restored`: every spawn rate-limits;
with one attempt, the final environment has no Bedrock token. -/
theorem c10_token_never_restored_witness :
    (⟨some "1", some "tok", some "key"⟩ : RetryEnv).useBedrock = some "1" ∧
    anthropicTruthy (⟨some "1", some "tok", some "key"⟩ : RetryEnv).anthropicKey = true ∧
    isRateLimitFailure ((fun _ => (⟨["rate limit"], 1⟩ : SpawnOutcome)) 0) = true ∧
    isRateLimitFailure ((fun _ => (⟨["rate limit"], 1⟩ : SpawnOutcome)) 1) = true ∧
    (runClaudeWithRetry (fun _ => (⟨["rate limit"], 1⟩ : SpawnOutcome))
        ⟨some "1", some "tok", some "key"⟩ (0 + 1)).envFinal.bedrockToken = none :=
  ⟨rfl, by decide, by decide, by decide,
    (c10_token_never_restored (fun _ => (⟨["rate limit"], 1⟩ : SpawnOutcome))
      ⟨some "1", some "tok", some "key"⟩ 0 rfl (by decide) (by decide) (by decide)).2⟩

/-- Witness for `c4_amended_no_skip`: primary token present, secondary
key absent, primary answers 500, the (doomed) secondary attempt throws;
validation fails and the handler still made the secondary attempt. -/
theorem c4_amended_no_skip_witness :
    truthyTrim none = false ∧
    (ForwardResult.response 500 "boom").ok = false ∧
    (ForwardResult.networkError "no api key").ok = false ∧
    ((∃ e, validateCredentials (some "tok") none = Except.error e) ∧
     (handleMessages initStats (ForwardResult.response 500 "boom")
        (ForwardResult.networkError "no api key")).stats.anthropicFailovers =
       initStats.anthropicFailovers + 1 ∧
     (handleMessages initStats (ForwardResult.response 500 "boom")
        (ForwardResult.networkError "no api key")).stats.failures = initStats.failures + 1 ∧
     (handleMessages initStats (ForwardResult.response 500 "boom")
        (ForwardResult.networkError "no api key")).attempts =
       [(Provider.bedrock, ForwardResult.response 500 "boom"),
        (Provider.anthropic, ForwardResult.networkError "no api key")]) :=
  ⟨rfl, rfl, rfl,
    c4_amended_no_skip (some "tok") none initStats (ForwardResult.response 500 "boom")
      (ForwardResult.networkError "no api key") rfl rfl rfl⟩

end ClaudeAction
